import Mathlib

/-
Verification development for the component runtime in src/component.js
(and its companion src/switchable.js).

The embedding is a shallow one over list-shaped streams:
* JavaScript runtime values are modelled by the inductive type JSVal
  (numbers as Int, objects as association lists of own enumerable
  properties, functions and symbols as plain numeric tags).
* A stream is modelled as the list of values it emits, in emission
  order; the xstream operators used by the code (filter, map, merge of
  per-route streams, concat-seeding, dropRepeats) become the
  corresponding list operations.
* Reducer functions are modelled as Lean functions of (state, data);
  the extra arguments of the real reducers (the dispatch callback and
  the request reference) are modelled separately where a claim needs
  them (the event-loop model runTurns and the field ActionEvt.req).
All definitions below are translated from the source file; line
numbers in comments refer to src/component.js.
-/

set_option autoImplicit false

/-- Model of a JavaScript runtime value. Objects carry their own
enumerable properties as an association list in insertion order
(later entries override earlier ones on lookup, as in JS object
spread); functions and symbols are plain numeric tags. -/
inductive JSVal where
  | vUndefined : JSVal
  | vNull : JSVal
  | vBool : Bool → JSVal
  | vNum : Int → JSVal
  | vStr : String → JSVal
  | vFunc : Nat → JSVal
  | vSym : Nat → JSVal
  | vObj : List (String × JSVal) → JSVal

/-- The JavaScript typeof operator restricted to the modelled values.
Note typeof null is the string object, like in JS. -/
def typeofJS : JSVal → String
  | .vUndefined => "undefined"
  | .vNull => "object"
  | .vBool _ => "boolean"
  | .vNum _ => "number"
  | .vStr _ => "string"
  | .vFunc _ => "function"
  | .vSym _ => "symbol"
  | .vObj _ => "object"

/-- JavaScript truthiness for the modelled values (NaN is not
representable in the Int model of numbers). -/
def truthy : JSVal → Bool
  | .vUndefined => false
  | .vNull => false
  | .vBool b => b
  | .vNum n => n != 0
  | .vStr s => s ≠ ""
  | .vFunc _ => true
  | .vSym _ => true
  | .vObj _ => true

/-- The ABORT sentinel exported by the module: the plain string
tilde-tilde-ABORT-tilde-tilde (src/component.js line 35). -/
def ABORT : JSVal := .vStr "~~ABORT~~"

/-- Loose equality (the == and != operators) of a value against the
ABORT string, as used at lines 512 and 527.  Only a string with the
same characters compares loosely equal to it: null and undefined are
loosely equal only to each other, numbers and booleans coerce the
string to NaN, plain objects coerce to the string [object Object] via
ToPrimitive, a function coerces to its source text, and a symbol
compares unequal to any string without coercion. -/
def looseEqAbort : JSVal → Bool
  | .vStr s => s = "~~ABORT~~"
  | _ => false

/-- Own enumerable properties of a value, as read by object spread:
objects yield their fields, strings yield their indexed characters,
null and undefined and primitives yield nothing. -/
def ownEnumerableFields : JSVal → List (String × JSVal)
  | .vObj l => l
  | .vStr s => (s.toList.enum).map (fun p => (toString p.1, JSVal.vStr (String.singleton p.2)))
  | _ => []

/-- Property lookup: the last binding of a key wins (later spread
entries override earlier ones); a missing key reads as undefined. -/
def getField (v : JSVal) (k : String) : JSVal :=
  match (ownEnumerableFields v).reverse.find? (fun p => p.1 == k) with
  | some p => p.2
  | none => .vUndefined

/-- Present request ids become their string, absent ones the undefined
value (used when stamping emissions). -/
def optToVal : Option String → JSVal
  | some s => .vStr s
  | none => .vUndefined

/-- A request event as delivered by the router driver
(src/component.js lines 240-249 read id, params, body, cookies,
method, url).  The empty string models a missing or falsy id. -/
structure Request where
  id : String
  method : String := "GET"
  url : String := "/"
  params : JSVal := .vUndefined
  body : JSVal := .vUndefined
  cookies : JSVal := .vUndefined

/-- An action event travelling on the action bus.  reqId and actionTag
model the optional underscore-reqId and underscore-action fields of
the objects built at lines 246 and 503. -/
structure ActionEvt where
  type : String
  data : JSVal := .vUndefined
  req : Option Request := none
  reqId : Option String := none
  actionTag : Option String := none

/-- The effective request id of an action.  Mirrors the expression
action dot reqId OR (action.req AND action.req.id) at lines 498 and
518; a falsy (empty) id counts as absent, like the OR chain. -/
def effReqId (a : ActionEvt) : Option String :=
  match a.reqId with
  | some s =>
    if s = "" then (match a.req with
      | some r => if r.id = "" then none else some r.id
      | none => none)
    else some s
  | none =>
    match a.req with
    | some r => if r.id = "" then none else some r.id
    | none => none

/-- Unwrapping of re-dispatched action data (line 508): if the data is
truthy and carries truthy data and underscore-reqId fields, the inner
data field is used. -/
def unwrapActionData (a : ActionEvt) : JSVal :=
  let d := a.data
  if truthy d && truthy (getField d "data") && truthy (getField d "_reqId")
  then getField d "data"
  else d

/-- One state-sink reducer application (lines 510-514): the reducer is
called with the current state and the action data; a result loosely
equal to ABORT leaves the state value unchanged. -/
def stateStep (r : JSVal → JSVal → JSVal) (d s : JSVal) : JSVal :=
  let newState := r s d
  if looseEqAbort newState then s else newState

/-- The emitted state sequence: each action whose type has a
registered state reducer contributes one state value, computed by
stateStep from the previous value; actions with no registered state
reducer are filtered out (line 492).  This is the fold the external
state driver performs over the merged reducer stream produced by
makeOnAction with isStateSink true. -/
def stateScan (rmap : String → Option (JSVal → JSVal → JSVal)) (s : JSVal) :
    List ActionEvt → List JSVal
  | [] => []
  | a :: rest =>
    match rmap a.type with
    | none => stateScan rmap s rest
    | some r =>
      let s2 := stateStep r (unwrapActionData a) s
      s2 :: stateScan rmap s2 rest

/-- The state value reached after a list of actions (the value the
next reducer invocation will receive). -/
def lastState (rmap : String → Option (JSVal → JSVal → JSVal)) (s : JSVal) :
    List ActionEvt → JSVal
  | [] => s
  | a :: rest =>
    match rmap a.type with
    | none => lastState rmap s rest
    | some r => lastState rmap (stateStep r (unwrapActionData a) s) rest

/-- Stamping of an object emission (lines 499 and 520): the fields of
the reduced object are copied and the underscore-reqId and
underscore-action fields are set (overriding existing ones, since the
last binding of a key wins on lookup). -/
def stampObj (v : JSVal) (rid : Option String) (name : String) : JSVal :=
  .vObj (ownEnumerableFields v ++ [("_reqId", optToVal rid), ("_action", .vStr name)])

/-- Return-type policy of a non-state-sink reducer (lines 516-525):
string, number, boolean and function results pass through; object
results (including null) are stamped; undefined results are returned
after a console warning; any other type throws. -/
def nonStateReduce (name : String) (rid : Option String) (reduced : JSVal) :
    Except String JSVal :=
  let t := typeofJS reduced
  if t = "string" || t = "number" || t = "boolean" || t = "function" then .ok reduced
  else if t = "object" then .ok (stampObj reduced rid name)
  else if t = "undefined" then .ok reduced
  else .error ("Invalid reducer type for " ++ name ++ " " ++ t)

/-- Whether the policy logs a console warning for this reducer result
(the warning sits only on the undefined branch, lines 521-523). -/
def warnsUndefined (reduced : JSVal) : Bool :=
  typeofJS reduced = "undefined"

/-- The final filter on a reducer stream (line 527): values loosely
equal to ABORT are not emitted. -/
def abortFilter (v : JSVal) : Option JSVal :=
  if looseEqAbort v then none else some v

/-- Full non-state emission pipeline for one reducer result: policy
first, ABORT filter second.  ok none means the value was swallowed by
the filter; error means the throw at line 525. -/
def nonStateEmit (name : String) (rid : Option String) (reduced : JSVal) :
    Except String (Option JSVal) :=
  (nonStateReduce name rid reduced).map abortFilter

/-- The stream a non-state sink receives for one registered action
type (lines 492 and 496-527): the action stream is filtered to the
matching type, the reducer runs against the cached side-channel state
cur, and each result goes through the emission pipeline. -/
def effectRun (ename : String) (er : JSVal → JSVal → JSVal) (cur : JSVal)
    (acts : List ActionEvt) : List (Except String (Option JSVal)) :=
  (acts.filter (fun a => a.type == ename)).map
    (fun a => nonStateEmit ename (effReqId a) (er cur (unwrapActionData a)))

/-- The per-sink outputs of the model engine for one state-reducer map
and one non-state sink: the state sink and the effect sink are
independent merged streams (initModel reducers, lines 358-372). -/
def componentRun (rmap : String → Option (JSVal → JSVal → JSVal)) (s0 : JSVal)
    (ename : String) (er : JSVal → JSVal → JSVal) (cur : JSVal)
    (acts : List ActionEvt) : List JSVal × List (Except String (Option JSVal)) :=
  (stateScan rmap s0 acts, effectRun ename er cur acts)

/-- The default INITIALIZE state handler installed by initState when
the model lacks one (lines 294-297): it spreads the action data into a
fresh object, ignoring the previous state. -/
def defaultInitHandler : JSVal → JSVal → JSVal :=
  fun _ data => .vObj (ownEnumerableFields data)

/-- initState (lines 292-307) at the state-sink column of the model: a
present INITIALIZE entry is kept, a missing one is filled with the
default handler; other action types are untouched. -/
def installDefaultInit (m : String → Option (JSVal → JSVal → JSVal)) :
    String → Option (JSVal → JSVal → JSVal) := fun t =>
  match m t with
  | some h => some h
  | none => if t = "INITIALIZE" then some defaultInitHandler else none

/-- initModel seeding (lines 318-319): when the initial state is
truthy, an INITIALIZE pseudo-action carrying it is concatenated ahead
of the live action stream; a falsy initial state leaves the action
stream unseeded. -/
def seedInitialize (initialState : JSVal) (acts : List ActionEvt) : List ActionEvt :=
  if truthy initialState
  then { type := "INITIALIZE", data := initialState } :: acts
  else acts

/-- An event on the merged response stream, shaped like the objects
built at line 246 (type, data, underscore-reqId, underscore-action). -/
structure ResponseEvt where
  type : String := ""
  data : JSVal := .vUndefined
  reqId : String
  action : String

/-- A route registration target (lines 225-230): either an action name
or a handler function of current state and request.  The Except result
models a handler that may throw (caught at line 271). -/
inductive RouteTarget where
  | toAction : String → RouteTarget
  | toFun : (JSVal → Request → Except String JSVal) → RouteTarget

/-- Outcome of the per-request map function (lines 235-274).
streamErr models the throw at line 237, which sits outside the
try-catch and therefore propagates as a stream error; caught models an
exception raised inside the try block, which is logged and produces no
inner stream (the map returns undefined); emits is the inner stream of
response events that flatten merges into the route stream. -/
inductive RouteStep where
  | streamErr : String → RouteStep
  | caught : RouteStep
  | emits : List ResponseEvt → RouteStep

/-- The request-selector capability of a source (spec section 6): the
request method of a driver source, keyed by a request id, yields the
stream of driver-level response events correlated to that id. -/
def selectRequest (driver : List ResponseEvt) (i : String) : List ResponseEvt :=
  driver.filter (fun e => e.reqId == i)

/-- The action object synthesized for a request routed to an action
name (line 246): type and underscore-action are the action name, data
is the request body, and the request and its id ride along. -/
def mkRouteAction (name : String) (r : Request) : ActionEvt :=
  { type := name
    data := r.body
    req := some r
    reqId := some r.id
    actionTag := some name }

/-- Processing of one (de-duplicated) request event (lines 235-274): a
request with a falsy id throws outside the try-catch; a function
target is invoked with the cached state and its result wrapped as a
single FUNCTION-tagged response carrying the request id; an action
name target injects the synthesized action into the bus (modelled by
mkRouteAction and the event-loop injection clause) and merges every
driver source request-selection for this id. -/
def processReq (target : RouteTarget) (cur : JSVal) (driver : List ResponseEvt)
    (r : Request) : RouteStep :=
  if r.id = "" then .streamErr "No id found in request"
  else
    match target with
    | .toFun f =>
      match f cur r with
      | .ok result =>
        .emits [{ type := "FUNCTION", data := result, reqId := r.id, action := "FUNCTION" }]
      | .error _ => .caught
    | .toAction _ => .emits (selectRequest driver r.id)

/-- The response events a RouteStep contributes to the route stream. -/
def stepResponses : RouteStep → List ResponseEvt
  | .emits rs => rs
  | _ => []

/-- The route stream over a list of incoming request events: emitted
response events plus an optional terminal stream error.  An uncaught
throw in the map function errors the stream, so nothing after it is
processed; a caught error drops only the offending event. -/
def routeRun (target : RouteTarget) (cur : JSVal) (driver : List ResponseEvt) :
    List Request → List ResponseEvt × Option String
  | [] => ([], none)
  | r :: rest =>
    match processReq target cur driver r with
    | .streamErr m => ([], some m)
    | .caught => routeRun target cur driver rest
    | .emits rs =>
      let t := routeRun target cur driver rest
      (rs ++ t.1, t.2)

/-- Consecutive de-duplication keyed by a comparator, with aux
carrying the last emitted element (xstream dropRepeats). -/
def dropRepeatsByAux {α : Type} (f : α → α → Bool) (prev : α) : List α → List α
  | [] => []
  | b :: rest => if f prev b then dropRepeatsByAux f prev rest else b :: dropRepeatsByAux f b rest

def dropRepeatsBy {α : Type} (f : α → α → Bool) : List α → List α
  | [] => []
  | a :: rest => a :: dropRepeatsByAux f a rest

/-- The full route pipeline (line 233-234): consecutive requests with
loosely equal ids are de-duplicated before the per-request map runs. -/
def routePipeline (target : RouteTarget) (cur : JSVal) (driver : List ResponseEvt)
    (reqs : List Request) : List ResponseEvt × Option String :=
  routeRun target cur driver (dropRepeatsBy (fun a b => a.id == b.id) reqs)

/-- The data stamping done by the dispatch callback next (lines
497-499): when the issuing action has an effective request id, object
data is spread and stamped, non-object data is wrapped in an object
with the data under the data key; without a request id the data passes
through untouched. -/
def nextData (name : String) (a : ActionEvt) (d : JSVal) : JSVal :=
  match effReqId a with
  | some rid =>
    if typeofJS d = "object" then stampObj d (some rid) name
    else .vObj [("data", d), ("_reqId", .vStr rid), ("_action", .vStr name)]
  | none => d

/-- The action pushed onto the bus by a dispatch call (line 503). -/
def dispatchedAction (name : String) (a : ActionEvt) (t : String) (d : JSVal) : ActionEvt :=
  { type := t, data := nextData name a d }

/-- Event-loop model for dispatch deferral (lines 500-505).  The bus
processes the actions of the current turn in order; every dispatch a
reducer issues through next goes through setTimeout, so it lands in a
later macrotask: the whole current turn completes before any deferred
action runs, and all of the deferred actions of this turn form the
next turn.  The result pairs each processed action with the index of
the turn that processed it.  disp gives, for each processed action,
the actions its reducers dispatch; fuel bounds the number of turns. -/
def runTurns (disp : ActionEvt → List ActionEvt) : Nat → Nat → List ActionEvt →
    List (Nat × ActionEvt)
  | 0, _, _ => []
  | fuel + 1, n, q =>
    if q.isEmpty then []
    else q.map (fun a => (n, a)) ++ runTurns disp fuel (n + 1) (q.flatMap disp)

/-- Request injection (line 261): shamefullySendNext delivers the
synthesized action to the bus synchronously, so it joins the queue of
the turn in progress instead of a deferred one. -/
def injectRequestAction (q : List ActionEvt) (a : ActionEvt) : List ActionEvt :=
  q ++ [a]

/-- The error message of the dead construction guard at lines 287-289. -/
def msgResponseWithoutRequest : String :=
  "Cannot have a response parameter without a request parameter"

/-- Validation control flow of initResponse (lines 207-212 and
287-289) as a function of the request and response constructor
parameters.  The Bool records whether the response stream field was
assigned: construction returns early when the request parameter is
undefined (line 209), and otherwise assigns the response stream
unconditionally at line 281 before the guard at line 287 runs. -/
def initResponseValidation (request response : JSVal) : Except String Bool :=
  if typeofJS request = "undefined" then .ok false
  else if typeofJS request ≠ "object" then .error "The request parameter must be an object"
  else
    let responseStreamDefined := true
    if typeofJS response ≠ "undefined" ∧ responseStreamDefined = false
    then .error msgResponseWithoutRequest
    else .ok responseStreamDefined

/-- Validation control flow of initSendResponse (lines 375-417).
respondOut stands for the evaluation of the user response function on
the selectable wrapper: ok with its returned value, or error when it
throws (for example by filtering an undefined response stream). -/
def initSendResponseValidation (response : JSVal) (respondOut : Except String JSVal) :
    Except String Unit :=
  if typeofJS response ≠ "function" ∧ typeofJS response ≠ "undefined"
  then .error "The response parameter must be a function"
  else if typeofJS response = "undefined" then .ok ()
  else
    match respondOut with
    | .error e => .error e
    | .ok out =>
      if typeofJS out ≠ "object" then .error "The response function must return an object"
      else .ok ()

/-- The request and response related part of component construction:
initResponse runs first, then initSendResponse (lines 148 and 151). -/
def constructRR (request response : JSVal) (respondOut : Except String JSVal) :
    Except String Unit :=
  match initResponseValidation request response with
  | .error e => .error e
  | .ok _ => initSendResponseValidation response respondOut

/-- The intent constructor parameter: absent, or a producer of the
given list of intent-derived actions. -/
inductive IntentSpec where
  | absent : IntentSpec
  | given : List ActionEvt → IntentSpec

def isAbsent : IntentSpec → Bool
  | .absent => true
  | _ => false

/-- The constructor parameters consulted by the root-component default
branch (lines 135-141). -/
structure CtorOpts where
  intent : IntentSpec
  hasModel : Bool
  initialState : JSVal := .vUndefined

/-- The resolved configuration after the constructor ran: defaulted
records whether the no-op intent and model were synthesized. -/
structure Resolved where
  intent : IntentSpec
  hasModel : Bool
  initialState : JSVal
  defaulted : Bool

/-- The root-component default branch (lines 135-141): only when the
process-wide flag is still set and neither intent nor model was given,
a no-op intent and model are synthesized and the initial state is
defaulted to true when falsy. -/
def applyRootDefaults (isRoot : Bool) (o : CtorOpts) : Resolved :=
  if isRoot && isAbsent o.intent && !o.hasModel then
    { intent := .given []
      hasModel := true
      initialState := if truthy o.initialState then o.initialState else .vBool true
      defaulted := true }
  else
    { intent := o.intent
      hasModel := o.hasModel
      initialState := o.initialState
      defaulted := false }

/-- A sequence of component constructions threading the process-wide
IS-ROOT flag: the flag is set to false after every construction (line
142), whatever the parameters were. -/
def constructSeq : Bool → List CtorOpts → List Resolved
  | _, [] => []
  | flag, o :: rest => applyRootDefaults flag o :: constructSeq false rest

/-- All constructions of a process: the flag starts true (line 32). -/
def constructAll (l : List CtorOpts) : List Resolved :=
  constructSeq true l

/-- The action stream of a resolved component (initAction, lines
172-205): without an intent the stream is empty (xs.never, line 176);
with one, a BOOTSTRAP action is concatenated ahead of the
intent-derived actions (line 190). -/
def actionStream (r : Resolved) : List ActionEvt :=
  match r.intent with
  | .absent => []
  | .given acts => { type := "BOOTSTRAP" } :: acts

/-- Concrete request used by witness and counterexample theorems. -/
def wReq1 : Request := { id := "r1", body := .vNum 1 }

/-- A request event whose id field is missing (falsy). -/
def wBadReq : Request := { id := "" }

/-- A driver-level response event correlated to request r1. -/
def wDriverEvt : ResponseEvt := { type := "T", data := .vNum 7, reqId := "r1", action := "SAVE" }

def wDriver : List ResponseEvt := [wDriverEvt]

/-- A route handler function that always throws. -/
def wFailFun : JSVal → Request → Except String JSVal := fun _ _ => .error "handler threw"

/-- A state-reducer registry with an always-ABORT reducer on X and an
identity reducer on NOOP. -/
def wRmap : String → Option (JSVal → JSVal → JSVal) := fun t =>
  if t = "X" then some (fun _ _ => ABORT)
  else if t = "NOOP" then some (fun s _ => s)
  else none

def wX : ActionEvt := { type := "X" }

def wNoop : ActionEvt := { type := "NOOP" }

def wS0 : JSVal := .vObj [("count", .vNum 0)]

/-- A model registry with no reducers at all. -/
def wModelNone : String → Option (JSVal → JSVal → JSVal) := fun _ => none

/-- A dispatch behaviour: processing an action of type A dispatches
one action of type B through next. -/
def wDisp : ActionEvt → List ActionEvt := fun a =>
  if a.type == "A" then [dispatchedAction "A" a "B" (.vNum 1)] else []

def wA : ActionEvt := { type := "A" }

def wB : ActionEvt := dispatchedAction "A" wA "B" (.vNum 1)

/-- The synthesized action of request r1 routed to action SAVE. -/
def wR : ActionEvt := mkRouteAction "SAVE" wReq1

/-- Constructor options with neither intent nor model. -/
def wCtorAbsent : CtorOpts := { intent := .absent, hasModel := false, initialState := .vNum 3 }


theorem stateScan_append (rmap : String → Option (JSVal → JSVal → JSVal))
    (l1 l2 : List ActionEvt) :
    ∀ s, stateScan rmap s (l1 ++ l2)
      = stateScan rmap s l1 ++ stateScan rmap (lastState rmap s l1) l2 := by
  induction l1 with
  | nil => intro s; simp [stateScan, lastState]
  | cons a rest ih =>
    intro s
    cases h : rmap a.type with
    | none => simp [stateScan, lastState, h, ih]
    | some r => simp [stateScan, lastState, h, ih]

theorem lastState_append (rmap : String → Option (JSVal → JSVal → JSVal))
    (l1 l2 : List ActionEvt) :
    ∀ s, lastState rmap s (l1 ++ l2) = lastState rmap (lastState rmap s l1) l2 := by
  induction l1 with
  | nil => intro s; simp [lastState]
  | cons a rest ih =>
    intro s
    cases h : rmap a.type with
    | none => simp [lastState, h, ih]
    | some r => simp [lastState, h, ih]

/-- A reducer application never produces a value loosely equal to
ABORT from a state that is not: an ABORT result is replaced by the
previous state. -/
theorem stateStep_no_abort (r : JSVal → JSVal → JSVal) (d s : JSVal)
    (hs : looseEqAbort s = false) : looseEqAbort (stateStep r d s) = false := by
  unfold stateStep
  by_cases h : looseEqAbort (r s d) = true
  · simp [h, hs]
  · simp at h
    simp [h]

theorem stateScan_no_abort (rmap : String → Option (JSVal → JSVal → JSVal))
    (acts : List ActionEvt) :
    ∀ s, looseEqAbort s = false →
      ∀ v ∈ stateScan rmap s acts, looseEqAbort v = false := by
  induction acts with
  | nil => intro s _ v hv; simp [stateScan] at hv
  | cons a rest ih =>
    intro s hs v hv
    cases h : rmap a.type with
    | none =>
      simp [stateScan, h] at hv
      exact ih s hs v hv
    | some r =>
      simp [stateScan, h] at hv
      rcases hv with hv | hv
      · rw [hv]; exact stateStep_no_abort r (unwrapActionData a) s hs
      · exact ih (stateStep r (unwrapActionData a) s)
          (stateStep_no_abort r (unwrapActionData a) s hs) v hv

theorem dropRepeatsByAux_subset {α : Type} (f : α → α → Bool) :
    ∀ (l : List α) (p x : α), x ∈ dropRepeatsByAux f p l → x ∈ l := by
  intro l
  induction l with
  | nil => intro p x hx; simp [dropRepeatsByAux] at hx
  | cons b rest ih =>
    intro p x hx
    by_cases h : f p b = true
    · simp [dropRepeatsByAux, h] at hx
      exact List.mem_cons_of_mem b (ih p x hx)
    · simp only [dropRepeatsByAux, h] at hx
      simp at hx
      rcases hx with hx | hx
      · simp [hx]
      · exact List.mem_cons_of_mem b (ih b x hx)

theorem dropRepeatsBy_subset {α : Type} (f : α → α → Bool) (l : List α) (x : α)
    (hx : x ∈ dropRepeatsBy f l) : x ∈ l := by
  cases l with
  | nil => simp [dropRepeatsBy] at hx
  | cons a rest =>
    simp only [dropRepeatsBy] at hx
    rcases List.mem_cons.mp hx with h | h
    · simp [h]
    · exact List.mem_cons_of_mem a (dropRepeatsByAux_subset f rest a x h)

/-- Every response event a single request contributes carries the id
of that request: the FUNCTION wrapper copies it, and the driver
selections are keyed by it. -/
theorem processReq_ids (target : RouteTarget) (cur : JSVal) (driver : List ResponseEvt)
    (r : Request) (e : ResponseEvt)
    (he : e ∈ stepResponses (processReq target cur driver r)) : e.reqId = r.id := by
  unfold processReq at he
  by_cases hid : r.id = ""
  · simp [hid, stepResponses] at he
  · simp only [hid, if_false, if_neg hid] at he
    cases target with
    | toFun f =>
      cases hf : f cur r with
      | ok result =>
        simp [hf, stepResponses] at he
        simp [he]
      | error m => simp [hf, stepResponses] at he
    | toAction name =>
      simp only [stepResponses] at he
      have := List.mem_filter.mp he
      exact eq_of_beq this.2

/-- Every event of the route stream carries the id of one of the
incoming requests. -/
theorem routeRun_ids (target : RouteTarget) (cur : JSVal) (driver : List ResponseEvt) :
    ∀ (rs : List Request) (e : ResponseEvt), e ∈ (routeRun target cur driver rs).1 →
      ∃ r, r ∈ rs ∧ e.reqId = r.id := by
  intro rs
  induction rs with
  | nil => intro e he; simp [routeRun] at he
  | cons r rest ih =>
    intro e he
    cases hstep : processReq target cur driver r with
    | streamErr m => simp [routeRun, hstep] at he
    | caught =>
      simp only [routeRun, hstep] at he
      obtain ⟨r2, hr2, hid⟩ := ih e he
      exact ⟨r2, List.mem_cons_of_mem r hr2, hid⟩
    | emits es =>
      simp only [routeRun, hstep] at he
      rcases List.mem_append.mp he with h | h
      · refine ⟨r, List.mem_cons_self r rest, ?_⟩
        have : e ∈ stepResponses (processReq target cur driver r) := by
          simp [hstep, stepResponses, h]
        exact processReq_ids target cur driver r e this
      · obtain ⟨r2, hr2, hid⟩ := ih e h
        exact ⟨r2, List.mem_cons_of_mem r hr2, hid⟩

/-- C1.  Request-response correlation: (a) every response event a
request with truthy id contributes, whether from a function route or
from the driver request-selectors of an action route, carries that
id of that request; (b) the merged route pipeline never emits a response
whose id did not come from one of the incoming requests; (c) the
synthesized action of an action route carries the request id, and any
object emission the corresponding non-state reducer produces is
stamped with exactly that id. -/
theorem c1_request_response_correlation (target : RouteTarget) (cur : JSVal)
    (driver : List ResponseEvt) (reqs : List Request) :
    (∀ (r : Request) (e : ResponseEvt), r.id ≠ "" →
        e ∈ stepResponses (processReq target cur driver r) → e.reqId = r.id)
    ∧ (∀ e ∈ (routePipeline target cur driver reqs).1, ∃ r, r ∈ reqs ∧ e.reqId = r.id)
    ∧ (∀ (name : String) (r : Request) (reduced : JSVal), r.id ≠ "" →
        typeofJS reduced = "object" →
        effReqId (mkRouteAction name r) = some r.id
        ∧ nonStateReduce name (effReqId (mkRouteAction name r)) reduced
            = .ok (stampObj reduced (some r.id) name)
        ∧ getField (stampObj reduced (some r.id) name) "_reqId" = .vStr r.id) := by
  refine ⟨?_, ?_, ?_⟩
  · intro r e _ he
    exact processReq_ids target cur driver r e he
  · intro e he
    obtain ⟨r, hr, hid⟩ := routeRun_ids target cur driver _ e he
    exact ⟨r, dropRepeatsBy_subset _ reqs r hr, hid⟩
  · intro name r reduced hid hobj
    have heff : effReqId (mkRouteAction name r) = some r.id := by
      simp [effReqId, mkRouteAction, hid]
    refine ⟨heff, ?_, ?_⟩
    · rw [heff]
      unfold nonStateReduce
      rcases reduced with _ | _ | b | n | s | t | t | l <;> simp_all [typeofJS]
    · unfold getField stampObj
      simp [ownEnumerableFields, optToVal, List.reverse_append, List.find?]

/-- Witness for C1: one request with id r1 routed to the action SAVE,
one driver event correlated to r1. -/
theorem c1_witness :
    wDriverEvt.reqId = wReq1.id
    ∧ (∃ r, r ∈ [wReq1] ∧ wDriverEvt.reqId = r.id)
    ∧ effReqId (mkRouteAction "SAVE" wReq1) = some wReq1.id := by
  have h := c1_request_response_correlation (.toAction "SAVE") .vNull wDriver [wReq1]
  refine ⟨?_, ?_, ?_⟩
  · exact h.1 wReq1 wDriverEvt (by simp [wReq1]) (by
      show wDriverEvt ∈ stepResponses (processReq (.toAction "SAVE") .vNull wDriver wReq1)
      exact List.mem_singleton.mpr rfl)
  · exact h.2.1 wDriverEvt (by
      show wDriverEvt ∈ (routePipeline (.toAction "SAVE") .vNull wDriver [wReq1]).1
      exact List.mem_singleton.mpr rfl)
  · exact (h.2.2 "SAVE" wReq1 (.vObj []) (by simp [wReq1]) rfl).1

/-- C2.  ABORT idempotence: when the state reducer of x returns ABORT
at the state reached before x, (a) the emitted state sequence is
identical to the run in which x is replaced by an action whose reducer
has no effect (an identity reducer), since x re-emits the prior state
exactly as the identity reducer would; (b) the state passed to the
next reducer after x equals the state before x, as the same value; (c)
no value of the emitted state sequence is ever loosely equal to ABORT,
provided the seed is not. -/
theorem c2_abort_idempotence (rmap : String → Option (JSVal → JSVal → JSVal))
    (s0 : JSVal) (pre post : List ActionEvt) (x : ActionEvt)
    (r : JSVal → JSVal → JSVal) (hr : rmap x.type = some r)
    (habort : r (lastState rmap s0 pre) (unwrapActionData x) = ABORT)
    (nt : String) (hnt : rmap nt = some (fun s _ => s))
    (h0 : looseEqAbort s0 = false) :
    stateScan rmap s0 (pre ++ x :: post)
      = stateScan rmap s0 (pre ++ ({ type := nt } : ActionEvt) :: post)
    ∧ lastState rmap s0 (pre ++ [x]) = lastState rmap s0 pre
    ∧ (∀ v ∈ stateScan rmap s0 (pre ++ x :: post), looseEqAbort v = false) := by
  have hstep : stateStep r (unwrapActionData x) (lastState rmap s0 pre)
      = lastState rmap s0 pre := by
    unfold stateStep
    rw [habort]
    simp [ABORT, looseEqAbort]
  have hnoopstep : ∀ d s, stateStep (fun s _ => s) d s = s := by
    intro d s
    show (if looseEqAbort s = true then s else s) = s
    exact ite_self s
  refine ⟨?_, ?_, ?_⟩
  · rw [stateScan_append, stateScan_append]
    congr 1
    show stateScan rmap (lastState rmap s0 pre) (x :: post)
      = stateScan rmap (lastState rmap s0 pre) (({ type := nt } : ActionEvt) :: post)
    simp only [stateScan, hr, hnt, hstep, hnoopstep]
  · rw [lastState_append]
    simp only [lastState, hr, hstep]
  · exact stateScan_no_abort rmap (pre ++ x :: post) s0 h0

/-- Witness for C2: an always-ABORT reducer on X and an identity
reducer on NOOP, starting from a count-zero object state. -/
theorem c2_witness :
    stateScan wRmap wS0 [wX] = stateScan wRmap wS0 [wNoop]
    ∧ lastState wRmap wS0 [wX] = lastState wRmap wS0 [] := by
  have h := c2_abort_idempotence wRmap wS0 [] [] wX (fun _ _ => ABORT) rfl rfl "NOOP" rfl rfl
  exact ⟨h.1, h.2.1⟩

/-- C3 (amended).  Initialization: when the model has no INITIALIZE
entry and the initial state is an object (hence truthy) that does not
carry both a truthy data field and a truthy underscore-reqId field,
the state sink emits that object as its first value, before any live
action is processed: the reducer stream is seeded with the INITIALIZE
pseudo-action ahead of the action stream and reduced by the default
handler, which spreads the carried snapshot into a fresh object equal
to it.  (A truthy non-object initial state yields only the object of
its own enumerable properties, and a falsy one suppresses the seeding
entirely; see the counterexample.) -/
theorem c3_first_state_is_initial (m : String → Option (JSVal → JSVal → JSVal))
    (hm : m "INITIALIZE" = none) (l : List (String × JSVal)) (acts : List ActionEvt)
    (hD : truthy (getField (.vObj l) "data") = false
        ∨ truthy (getField (.vObj l) "_reqId") = false) :
    (stateScan (installDefaultInit m) .vUndefined (seedInitialize (.vObj l) acts)).head?
      = some (.vObj l) := by
  have hinst : installDefaultInit m "INITIALIZE" = some defaultInitHandler := by
    simp [installDefaultInit, hm]
  have hseed : seedInitialize (.vObj l) acts
      = ({ type := "INITIALIZE", data := .vObj l } : ActionEvt) :: acts := by
    simp [seedInitialize, truthy]
  have hunwrap : unwrapActionData { type := "INITIALIZE", data := .vObj l } = .vObj l := by
    show (if truthy (JSVal.vObj l) && truthy (getField (JSVal.vObj l) "data")
            && truthy (getField (JSVal.vObj l) "_reqId")
          then getField (JSVal.vObj l) "data" else JSVal.vObj l) = JSVal.vObj l
    rcases hD with h | h <;> rw [h] <;> simp
  have hstep : stateStep defaultInitHandler (.vObj l) .vUndefined = .vObj l := by
    unfold stateStep defaultInitHandler
    simp [ownEnumerableFields, looseEqAbort]
  rw [hseed]
  simp only [stateScan, hinst, hunwrap, hstep]
  rfl

/-- Counterexample for C3 as stated: constructing with the truthy
non-object initial state 5 and a model with no INITIALIZE entry makes
the state sink emit the empty object (the spread of 5) as its first
value, not 5. -/
theorem c3_counterexample :
    (stateScan (installDefaultInit wModelNone) .vUndefined
        (seedInitialize (.vNum 5) [])).head? = some (.vObj [])
    ∧ JSVal.vObj [] ≠ JSVal.vNum 5 := by
  refine ⟨rfl, ?_⟩
  intro h
  cases h

/-- Witness for C3 at a concrete object initial state. -/
theorem c3_witness :
    (stateScan (installDefaultInit wModelNone) .vUndefined
        (seedInitialize (.vObj [("count", .vNum 0)]) [])).head?
      = some (.vObj [("count", .vNum 0)]) :=
  c3_first_state_is_initial wModelNone rfl [("count", .vNum 0)] [] (Or.inr rfl)

/-- C4.  Dispatch deferral: when the reducer processing action A in
turn n dispatches action B through next, B is never delivered within
that reducer invocation; the whole of turn n (including A and the
application of its result) appears in the processed sequence before B,
and B is processed in the strictly later turn n plus one, because next
routes it through setTimeout.  A request-triggered action R, in
contrast, is pushed into the bus synchronously and is processed within
the current turn n itself, with no deferral. -/
theorem c4_dispatch_deferral (disp : ActionEvt → List ActionEvt) (n fuel : Nat)
    (q : List ActionEvt) (A B R : ActionEvt)
    (hA : A ∈ q) (hB : B ∈ disp A) (hfuel : 2 ≤ fuel) :
    (∃ pre post, runTurns disp fuel n q = pre ++ post
      ∧ (n, A) ∈ pre ∧ (∀ p ∈ pre, p.1 = n) ∧ (n + 1, B) ∈ post)
    ∧ (n, R) ∈ runTurns disp fuel n (injectRequestAction q R) := by
  obtain ⟨f, rfl⟩ : ∃ f, fuel = f + 1 + 1 := ⟨fuel - 2, by omega⟩
  constructor
  · have hq : q.isEmpty = false := by
      cases q with
      | nil => cases hA
      | cons a l => rfl
    refine ⟨q.map (fun a => (n, a)), runTurns disp (f + 1) (n + 1) (q.flatMap disp),
      ?_, ?_, ?_, ?_⟩
    · simp [runTurns, hq]
    · exact List.mem_map_of_mem (fun a => (n, a)) hA
    · intro p hp
      obtain ⟨a, _, rfl⟩ := List.mem_map.mp hp
      rfl
    · have hBf : B ∈ q.flatMap disp := List.mem_flatMap.mpr ⟨A, hA, hB⟩
      have hne : (q.flatMap disp).isEmpty = false := by
        cases hqq : q.flatMap disp with
        | nil => rw [hqq] at hBf; cases hBf
        | cons a l => rfl
      have hunfold : runTurns disp (f + 1) (n + 1) (q.flatMap disp)
          = (q.flatMap disp).map (fun a => (n + 1, a))
            ++ runTurns disp f (n + 1 + 1) ((q.flatMap disp).flatMap disp) := by
        simp [runTurns, hne]
      rw [hunfold]
      exact List.mem_append_left _ (List.mem_map_of_mem _ hBf)
  · have hne : (injectRequestAction q R).isEmpty = false := by
      cases hqq : injectRequestAction q R with
      | nil =>
        have hmem : R ∈ injectRequestAction q R := by simp [injectRequestAction]
        rw [hqq] at hmem
        cases hmem
      | cons a l => rfl
    have hunfold : runTurns disp (f + 1 + 1) n (injectRequestAction q R)
        = (injectRequestAction q R).map (fun a => (n, a))
          ++ runTurns disp (f + 1) (n + 1) ((injectRequestAction q R).flatMap disp) := by
      simp [runTurns, hne]
    rw [hunfold]
    exact List.mem_append_left _ (List.mem_map_of_mem _ (by simp [injectRequestAction]))

/-- Witness for C4: processing action A dispatches B; B runs in turn
one while A ran in turn zero; an injected request action runs in turn
zero itself. -/
theorem c4_witness :
    (0, wA) ∈ runTurns wDisp 2 0 [wA]
    ∧ (1, wB) ∈ runTurns wDisp 2 0 [wA]
    ∧ (0, wR) ∈ runTurns wDisp 2 0 (injectRequestAction [wA] wR) := by
  have h := c4_dispatch_deferral wDisp 0 2 [wA] wA wB wR (by simp)
    (by simp [wDisp, wA, wB]) (by omega)
  obtain ⟨⟨pre, post, heq, hpreA, _, hpostB⟩, hinj⟩ := h
  refine ⟨?_, ?_, hinj⟩
  · rw [heq]
    exact List.mem_append_left _ hpreA
  · rw [heq]
    exact List.mem_append_right _ hpostB

/-- C5 (amended).  Non-state reducer return policy: a string, number,
boolean or function result passes through unchanged unless it compares
loosely equal to the ABORT string, in which case the final filter
swallows it and nothing is emitted; an object result is stamped with
the request id and action name; an undefined result is emitted after a
console warning; any other type (a symbol) throws a fatal error; and
the state sink is unaffected by whatever the non-state reducer
returns, its output being computed independently. -/
theorem c5_return_type_policy (name : String) (rid : Option String) (v : JSVal) :
    ((typeofJS v = "string" ∨ typeofJS v = "number" ∨ typeofJS v = "boolean"
        ∨ typeofJS v = "function") → looseEqAbort v = false →
      nonStateEmit name rid v = .ok (some v))
    ∧ (typeofJS v = "string" → looseEqAbort v = true →
      nonStateEmit name rid v = .ok none)
    ∧ (typeofJS v = "object" →
      nonStateEmit name rid v = .ok (some (stampObj v rid name)))
    ∧ (typeofJS v = "undefined" →
      nonStateEmit name rid v = .ok (some v) ∧ warnsUndefined v = true)
    ∧ (typeofJS v = "symbol" →
      nonStateEmit name rid v = .error ("Invalid reducer type for " ++ name ++ " " ++ "symbol"))
    ∧ (∀ (rmap : String → Option (JSVal → JSVal → JSVal)) (s0 cur : JSVal)
        (ename : String) (er er2 : JSVal → JSVal → JSVal) (acts : List ActionEvt),
        (componentRun rmap s0 ename er cur acts).1 = (componentRun rmap s0 ename er2 cur acts).1) := by
  refine ⟨?_, ?_, ?_, ?_, ?_, ?_⟩
  · intro ht hab
    cases v <;> simp_all [typeofJS, nonStateEmit, nonStateReduce, abortFilter, Except.map]
  · intro ht hab
    cases v <;> simp_all [typeofJS, nonStateEmit, nonStateReduce, abortFilter, Except.map]
  · intro ht
    cases v <;> simp_all [typeofJS, nonStateEmit, nonStateReduce, abortFilter,
      stampObj, looseEqAbort, Except.map]
  · intro ht
    cases v <;> simp_all [typeofJS, nonStateEmit, nonStateReduce, abortFilter,
      looseEqAbort, warnsUndefined, Except.map]
  · intro ht
    cases v <;> simp_all [typeofJS, nonStateEmit, nonStateReduce, Except.map]
  · intro rmap s0 cur ename er er2 acts
    rfl

/-- Counterexample for C5 as stated: a non-state reducer returning the
plain string ABORT produces a string-typed value, yet the emission
pipeline drops it instead of emitting it unchanged. -/
theorem c5_counterexample :
    typeofJS (.vStr "~~ABORT~~") = "string"
    ∧ nonStateEmit "SAVE" (some "r1") (.vStr "~~ABORT~~") = .ok none := ⟨rfl, rfl⟩

/-- Witness for C5 at concrete values of each return type. -/
theorem c5_witness :
    nonStateEmit "SAVE" (some "r1") (.vStr "ok") = .ok (some (.vStr "ok"))
    ∧ nonStateEmit "SAVE" (some "r1") .vNull
        = .ok (some (stampObj .vNull (some "r1") "SAVE"))
    ∧ nonStateEmit "SAVE" (some "r1") (.vSym 0)
        = .error "Invalid reducer type for SAVE symbol" := by
  have h1 := c5_return_type_policy "SAVE" (some "r1") (.vStr "ok")
  have h2 := c5_return_type_policy "SAVE" (some "r1") .vNull
  have h3 := c5_return_type_policy "SAVE" (some "r1") (.vSym 0)
  exact ⟨h1.1 (Or.inl rfl) rfl, h2.2.2.1 rfl, h3.2.2.2.2.1 rfl⟩

/-- C6 (amended).  A request event lacking an id makes the per-request
map throw outside its try-catch, so the error propagates as a stream
error and terminates the route stream: no subsequent request event is
processed.  By contrast, an error thrown inside the try block (for
example a throwing route handler on a request that does have an id) is
caught and logged, only that request is dropped, and the stream
continues with the remaining requests. -/
theorem c6_missing_id_is_fatal (target : RouteTarget) (cur : JSVal)
    (driver : List ResponseEvt) (rest : List Request) (r : Request) (hr : r.id = "")
    (f : JSVal → Request → Except String JSVal) (r2 : Request) (h2 : ¬ r2.id = "")
    (msg : String) (hthrow : f cur r2 = .error msg) :
    routeRun target cur driver (r :: rest) = ([], some "No id found in request")
    ∧ routeRun (.toFun f) cur driver (r2 :: rest) = routeRun (.toFun f) cur driver rest := by
  constructor
  · simp [routeRun, processReq, hr]
  · simp [routeRun, processReq, h2, hthrow]

/-- Counterexample for C6 as stated: with a request lacking an id
followed by a well-formed request whose driver response is ready, the
route pipeline terminates at the first event and never processes the
second, although processing the second alone would deliver its
response. -/
theorem c6_counterexample :
    routePipeline (.toAction "SAVE") .vNull wDriver [wBadReq, wReq1]
      = ([], some "No id found in request")
    ∧ routePipeline (.toAction "SAVE") .vNull wDriver [wReq1] = ([wDriverEvt], none) :=
  ⟨rfl, rfl⟩

/-- Witness for C6 at concrete requests and a throwing handler. -/
theorem c6_witness :
    routeRun (.toAction "SAVE") .vNull wDriver [wBadReq, wReq1]
      = ([], some "No id found in request")
    ∧ routeRun (.toFun wFailFun) .vNull wDriver [wReq1, wReq1]
      = routeRun (.toFun wFailFun) .vNull wDriver [wReq1] := by
  have h := c6_missing_id_is_fatal (.toAction "SAVE") .vNull wDriver [wReq1] wBadReq rfl
    wFailFun wReq1 (by simp [wReq1]) "handler threw" rfl
  exact h

/-- C7.  The configuration guard that should reject a response
parameter supplied without a request parameter is dead code: when the
request parameter is undefined, initResponse returns before reaching
the guard at line 287, and when a request parameter is present the
response stream has already been assigned at line 281, so the guard
condition is never true.  A component built with a response function
that returns an object without touching the selectable therefore
completes construction with no error, contradicting the documented
configuration error. -/
theorem c7_dead_response_guard :
    constructRR .vUndefined (.vFunc 0) (.ok (.vObj [])) = .ok ()
    ∧ ∀ (request response : JSVal),
        initResponseValidation request response ≠ .error msgResponseWithoutRequest := by
  constructor
  · rfl
  · intro request response
    unfold initResponseValidation
    by_cases h1 : typeofJS request = "undefined"
    · simp [h1]
    · by_cases h2 : typeofJS request = "object"
      · simp [h1, h2]
      · simp only [h1, if_false, if_neg h1]
        have : ¬ ("The request parameter must be an object" = msgResponseWithoutRequest) := by
          simp [msgResponseWithoutRequest]
        simp_all [msgResponseWithoutRequest]

/-- C8 (amended).  The ABORT sentinel is the plain string
tilde-tilde-ABORT-tilde-tilde: it is distinguishable from null and
from every string other than its own spelling, and any reducer whose
result equals the sentinel value is treated as no state change. -/
theorem c8_abort_distinguishable (s : String) (h : ¬ s = "~~ABORT~~") :
    looseEqAbort (.vStr s) = false
    ∧ looseEqAbort .vNull = false
    ∧ (∀ (r : JSVal → JSVal → JSVal) (d st : JSVal),
        r st d = ABORT → stateStep r d st = st) := by
  refine ⟨by simp [looseEqAbort, h], rfl, ?_⟩
  intro r d st hre
  unfold stateStep
  rw [hre]
  simp [ABORT, looseEqAbort]

/-- Counterexample for C8 as stated: the plain string with the
sentinel spelling is a string value a reducer could return, it
compares loosely equal to ABORT, and a reducer returning it is treated
as no state change. -/
theorem c8_counterexample :
    looseEqAbort (.vStr "~~ABORT~~") = true
    ∧ typeofJS (.vStr "~~ABORT~~") = "string"
    ∧ stateStep (fun _ _ => .vStr "~~ABORT~~") .vNull (.vObj [("count", .vNum 0)])
        = .vObj [("count", .vNum 0)] := ⟨rfl, rfl, rfl⟩

/-- Witness for C8 at a concrete ordinary string. -/
theorem c8_witness :
    looseEqAbort (.vStr "hello") = false
    ∧ looseEqAbort .vNull = false
    ∧ stateStep (fun _ _ => ABORT) .vNull wS0 = wS0 := by
  have h := c8_abort_distinguishable "hello" (by simp)
  exact ⟨h.1, h.2.1, h.2.2 (fun _ _ => ABORT) .vNull wS0 rfl⟩

theorem constructSeq_false (l : List CtorOpts) :
    constructSeq false l = l.map (applyRootDefaults false) := by
  induction l with
  | nil => rfl
  | cons o rest ih => simp [constructSeq, ih]

theorem applyRootDefaults_false (o : CtorOpts) :
    applyRootDefaults false o
      = { intent := o.intent, hasModel := o.hasModel,
          initialState := o.initialState, defaulted := false } := by
  simp [applyRootDefaults]

/-- C9.  Only the first component constructed in the process can
receive the synthesized no-op defaults: the process-wide flag starts
true, every construction sets it false, so every later component built
with neither intent nor model keeps both absent, keeps its initial
state exactly as passed (no defaulting to true), gets no synthesis,
and its action stream is empty. -/
theorem c9_only_first_is_root (o : CtorOpts) (rest : List CtorOpts) (i : Nat)
    (hi : i < rest.length)
    (hInt : isAbsent (rest.get ⟨i, hi⟩).intent = true)
    (hMod : (rest.get ⟨i, hi⟩).hasModel = false) :
    constructAll (o :: rest) = applyRootDefaults true o :: rest.map (applyRootDefaults false)
    ∧ (∀ (flag : Bool) (o2 : CtorOpts) (rest2 : List CtorOpts),
        constructSeq flag (o2 :: rest2) = applyRootDefaults flag o2 :: constructSeq false rest2)
    ∧ (applyRootDefaults false (rest.get ⟨i, hi⟩)).defaulted = false
    ∧ (applyRootDefaults false (rest.get ⟨i, hi⟩)).intent = (rest.get ⟨i, hi⟩).intent
    ∧ (applyRootDefaults false (rest.get ⟨i, hi⟩)).hasModel = false
    ∧ (applyRootDefaults false (rest.get ⟨i, hi⟩)).initialState
        = (rest.get ⟨i, hi⟩).initialState
    ∧ actionStream (applyRootDefaults false (rest.get ⟨i, hi⟩)) = []
    ∧ (∀ (o2 : CtorOpts), (applyRootDefaults false o2).defaulted = false) := by
  refine ⟨?_, ?_, ?_, ?_, ?_, ?_, ?_, ?_⟩
  · show constructSeq true (o :: rest) = _
    rw [constructSeq, constructSeq_false]
  · intro flag o2 rest2
    rfl
  · rw [applyRootDefaults_false]
  · rw [applyRootDefaults_false]
  · rw [applyRootDefaults_false]
    exact hMod
  · rw [applyRootDefaults_false]
  · rw [applyRootDefaults_false]
    cases hx : (rest.get ⟨i, hi⟩).intent with
    | absent => simp [actionStream]
    | given l2 => rw [hx] at hInt; simp [isAbsent] at hInt
  · intro o2
    rw [applyRootDefaults_false]

/-- Witness for C9: two constructions with neither intent nor model;
the second receives no defaults and keeps its initial state. -/
theorem c9_witness :
    constructAll [wCtorAbsent, wCtorAbsent]
      = applyRootDefaults true wCtorAbsent :: [applyRootDefaults false wCtorAbsent]
    ∧ (applyRootDefaults false wCtorAbsent).defaulted = false
    ∧ (applyRootDefaults false wCtorAbsent).initialState = wCtorAbsent.initialState
    ∧ actionStream (applyRootDefaults false wCtorAbsent) = [] := by
  have h := c9_only_first_is_root wCtorAbsent [wCtorAbsent] 0 (by simp) rfl rfl
  exact ⟨h.1, h.2.2.1, h.2.2.2.2.2.1, h.2.2.2.2.2.2.1⟩

/-- C10.  A non-state reducer returning null is classified by typeof
as an object, so it is stamped rather than rejected or passed through:
the emitted value is the object holding only the request id and action
name stamps, no error is raised, no warning is logged, and the
emission survives the ABORT filter. -/
theorem c10_null_is_stamped (name : String) (rid : Option String) :
    typeofJS .vNull = "object"
    ∧ nonStateReduce name rid .vNull
        = .ok (.vObj [("_reqId", optToVal rid), ("_action", .vStr name)])
    ∧ nonStateEmit name rid .vNull
        = .ok (some (.vObj [("_reqId", optToVal rid), ("_action", .vStr name)]))
    ∧ warnsUndefined .vNull = false := by
  refine ⟨rfl, ?_, ?_, rfl⟩
  · simp [nonStateReduce, typeofJS, stampObj, ownEnumerableFields]
  · simp [nonStateEmit, nonStateReduce, typeofJS, stampObj, ownEnumerableFields,
      abortFilter, looseEqAbort, Except.map]
